import Mathlib

/-!
Verification of the request-orchestration and resilience layer of the
chatbot RAG gateway: safety rails, semantic cache, history store, REST and
SSE orchestrator flows, sliding-window rate limiter, generation-client
circuit breaker, SSE framing, and the idempotency ledger call sites.

Shallow embedding conventions:
* Python floats for wall-clock timestamps are modelled as rationals (ℚ).
* Redis structures are modelled as in-process association lists keyed by
  the data that the source hashes (sha256 keys are injective on their
  preimage, so the key is modelled by the preimage record itself).
* `json.dumps` / `json.loads` round-trips on the payload dicts the code
  stores are lossless, so stored values are modelled structurally.
* Async effects (awaits) are modelled by explicit state passing; metrics
  and logging calls are effect-free observability and are not modelled.
-/

namespace RagOps

/-! ## safety/rails.py — SENSITIVE_SHARE_REGEX and the input/stream gates

The regex (re.IGNORECASE | re.VERBOSE):
  (my\s+(password|api[_-]?key|secret|private\s+key))
| (here\s+is\s+my\s+(password|api[_-]?key|secret|private\s+key))
| (password\s*[:=]\s*\S{4,})
| (api[_-]?key\s*[:=]\s*\S{4,})
| (secret\s*[:=]\s*\S{4,})
| (private\s+key\s*[:=]\s*\S{4,})

Each alternative is a concatenation in which every variable-length piece
(\s+, \s*, \S{4,}) is followed by a piece starting with a character of the
complementary class, so greedy maximal-munch matching is equivalent to the
backtracking existence semantics of `re.search`. Case-insensitivity is
modelled by lowercasing the text (the pattern is pure ASCII).
-/

def pyIsSpace (c : Char) : Bool :=
  c = ' ' || c = '\t' || c = '\n' || c = '\r' || c = '\x0b' || c = '\x0c'

/-- Match a literal (already lowercased) pattern as a prefix, returning the
remaining input. -/
def matchLit : List Char → List Char → Option (List Char)
  | [], rest => some rest
  | _ :: _, [] => none
  | p :: ps, c :: cs => if c = p then matchLit ps cs else none

/-- Consume a maximal (possibly empty) run of whitespace: `\s*`. -/
def dropSpaces : List Char → List Char
  | [] => []
  | c :: cs => if pyIsSpace c then dropSpaces cs else c :: cs

/-- Pattern `\s+`: at least one whitespace character, then a maximal run. -/
def matchWs1 : List Char → Option (List Char)
  | [] => none
  | c :: cs => if pyIsSpace c then some (dropSpaces cs) else none

/-- Pattern `[_-]?` (the following literal is "key", which starts with neither
character, so greedy consumption is exact). -/
def dropOptDashUnderscore : List Char → List Char
  | [] => []
  | c :: cs => if c = '_' || c = '-' then cs else c :: cs

/-- Pattern `password | api[_-]?key | secret | private\s+key`. -/
def matchSecretWord (cs : List Char) : Option (List Char) :=
  match matchLit "password".toList cs with
  | some r => some r
  | none =>
    match ((matchLit "api".toList cs).map dropOptDashUnderscore).bind
        (matchLit "key".toList) with
    | some r => some r
    | none =>
      match matchLit "secret".toList cs with
      | some r => some r
      | none => ((matchLit "private".toList cs).bind matchWs1).bind
          (matchLit "key".toList)

/-- Length of the maximal leading `\S` run. -/
def nonSpaceRun : List Char → Nat
  | [] => 0
  | c :: cs => if pyIsSpace c then 0 else 1 + nonSpaceRun cs

/-- Pattern `\s*[:=]\s*\S{4,}` after a keyword. -/
def matchAssignTail (cs : List Char) : Bool :=
  match dropSpaces cs with
  | [] => false
  | c :: cs2 => (c = ':' || c = '=') && decide (4 ≤ nonSpaceRun (dropSpaces cs2))

/-- Pattern `my\s+(password|api[_-]?key|secret|private\s+key)` at this position. -/
def matchMyShare (cs : List Char) : Bool :=
  (((matchLit "my".toList cs).bind matchWs1).bind matchSecretWord).isSome

/-- Pattern `here\s+is\s+my\s+(...)` at this position. -/
def matchHereIsMyShare (cs : List Char) : Bool :=
  ((((((matchLit "here".toList cs).bind matchWs1).bind
      (matchLit "is".toList)).bind matchWs1).bind
      (matchLit "my".toList)).bind matchWs1).bind matchSecretWord |>.isSome

/-- The four `keyword\s*[:=]\s*\S{4,}` alternatives at this position. -/
def matchAssignShare (cs : List Char) : Bool :=
  (match matchLit "password".toList cs with
   | some r => matchAssignTail r
   | none => false) ||
  (match ((matchLit "api".toList cs).map dropOptDashUnderscore).bind
      (matchLit "key".toList) with
   | some r => matchAssignTail r
   | none => false) ||
  (match matchLit "secret".toList cs with
   | some r => matchAssignTail r
   | none => false) ||
  (match ((matchLit "private".toList cs).bind matchWs1).bind
      (matchLit "key".toList) with
   | some r => matchAssignTail r
   | none => false)

def sensitiveShareAt (cs : List Char) : Bool :=
  matchMyShare cs || matchHereIsMyShare cs || matchAssignShare cs

/-- Like `re.search`: try every start position. -/
def sensitiveShareSearch : List Char → Bool
  | [] => false
  | c :: cs => sensitiveShareAt (c :: cs) || sensitiveShareSearch cs

/-- The result of `SENSITIVE_SHARE_REGEX.search(text)` as a Boolean. -/
def SENSITIVE_SHARE_MATCH (text : String) : Bool :=
  sensitiveShareSearch (text.toList.map Char.toLower)

/-- The dict returned by `check_input` / used via `.get` by the
orchestrator. -/
structure GateResult where
  allowed : Bool
  reason : Option String
  transformed_text : Option String
deriving Repr, DecidableEq

/-- safety/rails.py `check_input`. -/
def check_input (text : String) : GateResult :=
  if SENSITIVE_SHARE_MATCH text then
    { allowed := false, reason := some "sensitive-sharing",
      transformed_text := none }
  else
    { allowed := true, reason := none, transformed_text := some text }

/-- safety/rails.py `check_stream_token` (returns the `blocked` flag).
The strict-mode PII check (`PII_EMAIL`/`PII_PHONE` search) is passed in as
the `pii` collaborator function. -/
def check_stream_token (strict : Bool) (pii : String → Bool)
    (token : String) : Bool :=
  if !strict then false
  else if pii token then true
  else SENSITIVE_SHARE_MATCH token

/-! ## domain/schemas.py — data model (pydantic models) -/

/-- Schema `Message` (tool_calls/tool_results are never populated by the core and
are omitted). -/
structure MessageM where
  role : String
  content : String
deriving Repr, DecidableEq

/-- Schema `RetrievalResult`; metadata maps are modelled as association lists. -/
structure RetrievalResultM where
  page_content : String
  metadata : List (String × String)
deriving Repr, DecidableEq

/-- Schema `UserInput`. -/
structure UserInputM where
  question : String
  session_id : Option String
  user_id : Option String
deriving Repr, DecidableEq

/-- Schema `ResponseOutput`; pydantic defaults: `citations = []`,
`finish_reason = "stop"`. -/
structure ResponseOutputM where
  text : String
  citations : List (List (String × String))
  finish_reason : String
deriving Repr, DecidableEq

/-! ## app/settings.py — the settings fields the modelled core reads -/

structure SettingsModel where
  CACHE_ENABLED : Bool
  RAG_ENABLED : Bool
  CACHE_TTL_SEC : Int
  SEMANTIC_CACHE_MAX_TEXT_CHARS : Int
  SSE_RESUME_OVERLAP_TOKENS : Int
  SSE_CACHE_FLUSH_EVERY_N_TOKENS : Int
  PRIVACY_STRICT_MODE : Bool
deriving Repr, DecidableEq

/-! ## rag/orchestrator.py — identity defaults -/

/-- The `session_ctx` dict built by `Orchestrator._session_ctx`:
`{"user_id": ui.user_id or "anon", "session_id": ui.session_id or "anon"}`.
Note: the `or` fallback for a missing `session_id` here is `"anon"`. -/
structure SessionCtx where
  user_id : String
  session_id : String
deriving Repr, DecidableEq

def session_ctx (ui : UserInputM) : SessionCtx :=
  { user_id := ui.user_id.getD "anon", session_id := ui.session_id.getD "anon" }

/-- Binding `session_id = ui.session_id or "default"` — the identity under which
both orchestrator flows read and append the history store. -/
def history_session_id (ui : UserInputM) : String :=
  ui.session_id.getD "default"

/-! ## cache/semantic.py and cache/kv.py

`_key(kind, question, session_ctx)` hashes the JSON of
`{"kind": kind, "q": question, "ctx": session_ctx}` together with the
configured version; sha256 is modelled by keying the store with the hash
preimage record itself. -/

structure CacheKey where
  version : String
  kind : String
  q : String
  ctx : SessionCtx
deriving Repr, DecidableEq

def semantic_cache_key (version : String) (kind : String) (question : String)
    (ctx : SessionCtx) : CacheKey :=
  { version := version, kind := kind, q := question, ctx := ctx }

/-- The JSON dict stored under a semantic-cache key. The REST flow stores
`{text, citations, finish_reason}`; the SSE flow stores `{frames, text}`
(final) or `{frames}` (incremental flush). A `none` field models an absent
dict key. -/
structure CachePayload where
  text : Option String
  citations : Option (List (List (String × String)))
  finish_reason : Option String
  frames : Option (List String)
deriving Repr, DecidableEq

/-- Serialization `resp.model_dump()` for a `ResponseOutput` (all three fields present,
no `frames` key). -/
def payloadOfResponse (r : ResponseOutputM) : CachePayload :=
  { text := some r.text, citations := some r.citations,
    finish_reason := some r.finish_reason, frames := none }

/-- Construction `ResponseOutput(**cache_data)` under pydantic defaults: extra keys
(`frames`) are ignored, missing `citations`/`finish_reason` take their
defaults. Only evaluated on dicts whose `"text"` key is present. -/
def responseOutputOfPayload (p : CachePayload) : ResponseOutputM :=
  { text := p.text.getD "", citations := p.citations.getD [],
    finish_reason := p.finish_reason.getD "stop" }

/-- The shared Redis KV: key ↦ (stored value, absolute expiry time). -/
def KVStore : Type := List (CacheKey × CachePayload × ℚ)

/-- Operation `KV.setex(key, ttl, value)` at wall-clock `now`: replaces any previous
entry under the key and arms a TTL. -/
def kv_setex (st : KVStore) (key : CacheKey) (ttl : ℚ) (v : CachePayload)
    (now : ℚ) : KVStore :=
  (key, v, now + ttl) :: st.filter (fun e => e.1 ≠ key)

/-- Operation `KV.get(key)` at wall-clock `now`: the stored value while the TTL has
not elapsed, `none` afterwards. -/
def kv_get (st : KVStore) (key : CacheKey) (now : ℚ) : Option CachePayload :=
  match st.find? (fun e => e.1 = key) with
  | some (_, v, expiry) => if now < expiry then some v else none
  | none => none

/-- The frames-truncation loop of `post_cache_set`: a cumulative character
budget, frames cut to the remaining budget, iteration stops once the
budget is consumed. -/
def truncFrames (max_chars : Nat) : List String → Nat → List String
  | [], _ => []
  | f :: rest, used =>
    if max_chars ≤ used then []
    else
      let remaining := max_chars - used
      let segment := if f.length ≤ remaining then f else f.take remaining
      segment :: truncFrames max_chars rest (used + segment.length)

/-- The payload truncation performed by `post_cache_set` before storing:
oversized `text` is cut to `max_chars` plus an ellipsis, `frames` are cut
to a cumulative `max_chars` budget; disabled when the configured budget is
not positive. -/
def truncatePayload (max_text_chars : Int) (p : CachePayload) : CachePayload :=
  let max_chars := (max 0 max_text_chars).toNat
  if 0 < max_chars then
    { p with
      text := match p.text with
        | some t => some (if max_chars < t.length then t.take max_chars ++ "…" else t)
        | none => none,
      frames := match p.frames with
        | some fs => some (truncFrames max_chars fs 0)
        | none => none }
  else p

/-- cache/semantic.py `pre_cache_get` (the JSON decode of the stored value
is lossless in this model). -/
def pre_cache_get (s : SettingsModel) (st : KVStore) (now : ℚ)
    (question : String) (ctx : SessionCtx) : Option CachePayload :=
  if !s.CACHE_ENABLED then none
  else kv_get st (semantic_cache_key "v1" "any" question ctx) now

/-- cache/semantic.py `post_cache_set`. -/
def post_cache_set (s : SettingsModel) (st : KVStore) (now : ℚ)
    (question : String) (ctx : SessionCtx) (response : CachePayload) : KVStore :=
  if !s.CACHE_ENABLED then st
  else
    let payload := truncatePayload s.SEMANTIC_CACHE_MAX_TEXT_CHARS response
    let ttl : ℚ := max 1 s.CACHE_TTL_SEC
    kv_setex st (semantic_cache_key "v1" "any" question ctx) ttl payload now

/-! ## history/store.py — append-only per-session log with trimming -/

def HistoryStore : Type := List (String × List MessageM)

def history_get (h : HistoryStore) (sid : String) : List MessageM :=
  match h.find? (fun e => e.1 = sid) with
  | some (_, msgs) => msgs
  | none => []

def history_set (h : HistoryStore) (sid : String) (msgs : List MessageM) :
    HistoryStore :=
  (sid, msgs) :: h.filter (fun e => e.1 ≠ sid)

def history_append (h : HistoryStore) (sid : String)
    (messages : List MessageM) : HistoryStore :=
  history_set h sid (history_get h sid ++ messages)

/-- Function `summarize_if_needed(session_id, keep_last=6)`: trims the stored log to
its last 6 messages when it is longer. -/
def summarize_if_needed (h : HistoryStore) (sid : String) : HistoryStore :=
  let msgs := history_get h sid
  if 6 < msgs.length then history_set h sid (msgs.drop (msgs.length - 6))
  else h

/-! ## rag/orchestrator.py — the two request flows

The flows are modelled as pure state transformers over an explicit world
(the shared Redis cache and the history store) together with an effect
trace counting backend and store interactions. External collaborators are
passed in: `redact` is the text transformation of `safety.rails.check_output`,
`pii` the strict-mode PII token test, `llm`/`stream` the generation
backend outcome for this request, `retrieveRes` the retriever outcome.
Metrics/log emission and prompt assembly (`build_context`/`build_messages`,
consumed only by the backend) do not affect the modelled observables. -/

structure WorldM where
  cache : KVStore
  history : HistoryStore

structure Effects where
  llm_calls : Nat
  cache_reads : Nat
  cache_writes : Nat
  history_reads : Nat
  history_writes : Nat
deriving Repr, DecidableEq

def Effects.zero : Effects :=
  { llm_calls := 0, cache_reads := 0, cache_writes := 0,
    history_reads := 0, history_writes := 0 }

def metaGet (m : List (String × String)) (k : String) (dflt : String) : String :=
  match m.find? (fun e => e.1 = k) with
  | some (_, v) => v
  | none => dflt

/-- Python `str.strip()`. -/
def pyStrip (s : String) : String :=
  (((s.toList.dropWhile pyIsSpace).reverse.dropWhile pyIsSpace).reverse).asString

def newlineToSpace (s : String) : String :=
  String.map (fun c => if c = '\n' then ' ' else c) s

/-- Method `Orchestrator._fallback_from_context`: the deterministic degraded
answer used when generation fails. -/
def fallback_from_context (rag_enabled : Bool) (question : String)
    (results : List RetrievalResultM) : String :=
  if !rag_enabled || results.isEmpty then
    "Hiện không thể tạo câu trả lời do LLM gặp sự cố (vd. 429/quota) và RAG đang tắt hoặc không có dữ liệu. Vui lòng kiểm tra cấu hình/quota."
  else
    let body := (results.take 3).enum.map (fun p =>
      let src := metaGet p.2.metadata "source" "unknown"
      let snippet0 := newlineToSpace (pyStrip p.2.page_content)
      let snippet :=
        if 400 < snippet0.length then snippet0.take 400 ++ "…" else snippet0
      "- [" ++ toString (p.1 + 1) ++ "] (" ++ src ++ ") " ++ snippet)
    String.intercalate "\n"
      (["Tóm tắt nhanh (fallback, không dùng LLM):"] ++ body ++
        ["\nCâu hỏi: " ++ question])

def BLOCK_TEXT : String := "Yêu cầu bị chặn do chứa nội dung nhạy cảm."

/-- The retrieval step shared by both flows: skipped when RAG is disabled,
a retriever failure is recovered as "no results". -/
def retrieval_step (rag_enabled : Bool)
    (retrieveRes : Except Unit (List RetrievalResultM)) : List RetrievalResultM :=
  if rag_enabled then
    match retrieveRes with
    | .ok r => r
    | .error _ => []
  else []

/-- The cache-miss continuation of `Orchestrator.answer_rest`:
history load + trim, retrieval, generation (with degraded fallback),
output redaction, persistence of history and semantic cache. -/
def answer_rest_miss (s : SettingsModel) (redact : String → String)
    (llm : Except Unit String) (retrieveRes : Except Unit (List RetrievalResultM))
    (now : ℚ) (question : String) (ctx : SessionCtx) (sid : String)
    (cacheReads : Nat) (w : WorldM) : ResponseOutputM × WorldM × Effects :=
  let hist := history_get w.history sid
  let h1 := summarize_if_needed w.history sid
  let results := retrieval_step s.RAG_ENABLED retrieveRes
  let gen := match llm with
    | .ok t => (t, "stop")
    | .error _ => (fallback_from_context s.RAG_ENABLED question results, "degraded")
  let text := redact gen.1
  let resp : ResponseOutputM :=
    { text := text, citations := results.map (fun r => r.metadata),
      finish_reason := gen.2 }
  let h2 := history_append h1 sid
    [{ role := "user", content := question },
     { role := "assistant", content := text }]
  let cache2 := post_cache_set s w.cache now question ctx (payloadOfResponse resp)
  (resp, { cache := cache2, history := h2 },
   { llm_calls := 1, cache_reads := cacheReads,
     cache_writes := if s.CACHE_ENABLED then 1 else 0,
     history_reads := 1,
     history_writes := (if 6 < hist.length then 1 else 0) + 1 })

/-- Method `Orchestrator.answer_rest`. -/
def answer_rest (s : SettingsModel) (redact : String → String)
    (llm : Except Unit String) (retrieveRes : Except Unit (List RetrievalResultM))
    (now : ℚ) (ui : UserInputM) (w : WorldM) : ResponseOutputM × WorldM × Effects :=
  let gate := check_input ui.question
  if gate.allowed = false then
    ({ text := BLOCK_TEXT, citations := [], finish_reason := "blocked" }, w,
     Effects.zero)
  else
    let question := gate.transformed_text.getD ui.question
    let ctx := session_ctx ui
    let sid := history_session_id ui
    let cache_data :=
      if s.CACHE_ENABLED then pre_cache_get s w.cache now question ctx else none
    match cache_data with
    | some p =>
      match p.text with
      | some _ =>
        -- `"text" in cache_data`: return the stored response, no backend call
        (responseOutputOfPayload p, w,
         { llm_calls := 0, cache_reads := 1, cache_writes := 0,
           history_reads := 0, history_writes := 0 })
      | none =>
        answer_rest_miss s redact llm retrieveRes now question ctx sid 1 w
    | none =>
      answer_rest_miss s redact llm retrieveRes now question ctx sid
        (if s.CACHE_ENABLED then 1 else 0) w

/-- The SSE token loop: strict-mode token filtering, accumulation into
`frames`, and the incremental cache flush every `flush_every` kept tokens.
Returns (kept frames, cache store, number of flush writes). -/
def sse_stream_loop (s : SettingsModel) (pii : String → Bool) (now : ℚ)
    (question : String) (ctx : SessionCtx) (flush_every : Nat) :
    List String → Nat → List String → KVStore → List String × KVStore × Nat
  | [], _, frames, st => (frames, st, 0)
  | tok :: rest, since, frames, st =>
    if check_stream_token s.PRIVACY_STRICT_MODE pii tok then
      sse_stream_loop s pii now question ctx flush_every rest since frames st
    else
      let frames2 := frames ++ [tok]
      let since2 := since + 1
      if s.CACHE_ENABLED && (0 < flush_every && flush_every ≤ since2) then
        let st2 := post_cache_set s st now question ctx
          { text := none, citations := none, finish_reason := none,
            frames := some frames2 }
        let r := sse_stream_loop s pii now question ctx flush_every rest 0 frames2 st2
        (r.1, r.2.1, r.2.2 + 1)
      else
        sse_stream_loop s pii now question ctx flush_every rest since2 frames2 st

/-- The cache-miss continuation of `Orchestrator.answer_sse_tokens`.
`stream = (toks, failed)`: the chunks the generation stream delivered, and
whether it then raised (on failure one degraded fallback chunk is yielded,
`full` is rebound to the fallback text alone while `frames` keeps the
already-streamed tokens and appends the fallback). -/
def answer_sse_miss (s : SettingsModel) (redact : String → String)
    (pii : String → Bool) (stream : List String × Bool)
    (retrieveRes : Except Unit (List RetrievalResultM)) (now : ℚ)
    (question : String) (ctx : SessionCtx) (sid : String)
    (cacheReads : Nat) (w : WorldM) : List String × WorldM × Effects :=
  let hist := history_get w.history sid
  let h1 := summarize_if_needed w.history sid
  let results := retrieval_step s.RAG_ENABLED retrieveRes
  let flush_every : Nat := (max 0 s.SSE_CACHE_FLUSH_EVERY_N_TOKENS).toNat
  let loopOut := sse_stream_loop s pii now question ctx flush_every stream.1 0 [] w.cache
  let kept := loopOut.1
  let fb := fallback_from_context s.RAG_ENABLED question results
  let frames := if stream.2 then kept ++ [fb] else kept
  let full := if stream.2 then [fb] else kept
  let text := redact (String.join full)
  let h2 := history_append h1 sid
    [{ role := "user", content := question },
     { role := "assistant", content := text }]
  let st2 := post_cache_set s loopOut.2.1 now question ctx
    { text := some text, citations := none, finish_reason := none,
      frames := some frames }
  (frames, { cache := st2, history := h2 },
   { llm_calls := 1, cache_reads := cacheReads,
     cache_writes := loopOut.2.2 + (if s.CACHE_ENABLED then 1 else 0),
     history_reads := 1,
     history_writes := (if 6 < hist.length then 1 else 0) + 1 })

/-- Method `Orchestrator.answer_sse_tokens`: returns the yielded token chunks,
the final world, and the effect trace. -/
def answer_sse_tokens (s : SettingsModel) (redact : String → String)
    (pii : String → Bool) (stream : List String × Bool)
    (retrieveRes : Except Unit (List RetrievalResultM)) (now : ℚ)
    (ui : UserInputM) (resume_from : Int) (w : WorldM) :
    List String × WorldM × Effects :=
  let gate := check_input ui.question
  if gate.allowed = false then (["[blocked]"], w, Effects.zero)
  else
    let question := gate.transformed_text.getD ui.question
    let ctx := session_ctx ui
    let sid := history_session_id ui
    let cache_data :=
      if s.CACHE_ENABLED then pre_cache_get s w.cache now question ctx else none
    match cache_data with
    | some p =>
      match p.frames with
      | some frames =>
        -- cache hit with stored frames: replay from
        -- max(0, resume_from - overlap) and return, no backend call
        let overlap : Int := max 0 s.SSE_RESUME_OVERLAP_TOKENS
        let start_idx : Int :=
          if 0 < resume_from then max 0 (resume_from - overlap) else 0
        (frames.drop start_idx.toNat, w,
         { llm_calls := 0, cache_reads := 1, cache_writes := 0,
           history_reads := 0, history_writes := 0 })
      | none =>
        answer_sse_miss s redact pii stream retrieveRes now question ctx sid 1 w
    | none =>
      answer_sse_miss s redact pii stream retrieveRes now question ctx sid
        (if s.CACHE_ENABLED then 1 else 0) w

/-! ## ops/rate_limit.py — sliding-window rate limiter

The per-identity Redis ZSET is modelled as the list of member timestamps
(ZSET members are `str(now)` with score `now`, so membership is by
timestamp value). One `check_rate_limit` round-trip:
zremrangebyscore(key, 0, now-60) → zcard → zadd(now) → expire.
The request is admitted iff the post-drop count (before the insert) is
`< max 1 RATE_LIMIT_RPM`. -/

def RL_WINDOW_SEC : ℚ := 60

/-- The post-drop survivors: `zremrangebyscore key 0 window_start` removes
exactly the members with score in `[0, now - 60]`. -/
def rl_survivors (st : List ℚ) (now : ℚ) : List ℚ :=
  st.filter (fun t => !decide (0 ≤ t ∧ t ≤ now - RL_WINDOW_SEC))

/-- The count the admission decision is taken on: timestamps still in the
sliding window, before the current timestamp is inserted. -/
def rl_window_count (st : List ℚ) (now : ℚ) : Nat :=
  (rl_survivors st now).length

/-- Function `check_rate_limit` for one identity: returns (admitted?, new ZSET). -/
def check_rate_limit (rpm : Nat) (st : List ℚ) (now : ℚ) : Bool × List ℚ :=
  let limit := max 1 rpm
  let kept := rl_survivors st now
  let count := kept.length
  let st2 := if now ∈ kept then kept else kept ++ [now]
  (decide (count < limit), st2)

/-- A sequence of admission checks for the same identity at the given
times, threading the ZSET state; returns the admission outcomes and the
final state. -/
def rl_run (rpm : Nat) : List ℚ → List ℚ → List Bool × List ℚ
  | [], st => ([], st)
  | t :: ts, st =>
    let step := check_rate_limit rpm st t
    let rest := rl_run rpm ts step.2
    (step.1 :: rest.1, rest.2)

/-! ## llm/openai_compatible.py — circuit breaker and generate -/

def TRANSIENT_CODES : List Nat := [408, 409, 429, 500, 502, 503, 504]

/-- The `status in TRANSIENT_CODES` treatment of the (possibly absent)
HTTP-like status attribute of an error. -/
def transientStatus (status : Option Nat) : Bool :=
  match status with
  | none => true
  | some c => TRANSIENT_CODES.contains c

/-- The process-wide `_cb_state` dict. -/
structure CBState where
  fail_count : Nat
  open_until : ℚ
deriving Repr, DecidableEq

/-- Function `_circuit_is_open(mode)`: returns the open flag and the possibly
lazily-reset state. While `open_until > now` the state is untouched; once
`open_until` (nonzero, i.e. truthy) has elapsed the breaker is reset to
closed. -/
def circuit_is_open (enabled : Bool) (now : ℚ) (s : CBState) : Bool × CBState :=
  if !enabled then (false, s)
  else if now < s.open_until then (true, s)
  else if s.open_until ≠ 0 ∧ s.open_until ≤ now then
    (false, { fail_count := 0, open_until := 0 })
  else (false, s)

/-- Function `_circuit_on_success`. -/
def circuit_on_success (enabled : Bool) (s : CBState) : CBState :=
  if enabled then { fail_count := 0, open_until := 0 } else s

/-- Function `_circuit_on_error`: non-transient statuses are ignored; a transient
failure increments `fail_count`, and reaching `LLM_CB_FAIL_THRESHOLD`
opens the circuit until `now + LLM_CB_OPEN_SEC`. -/
def circuit_on_error (enabled : Bool) (threshold : Nat) (open_sec : ℚ)
    (now : ℚ) (status : Option Nat) (s : CBState) : CBState :=
  if !enabled then s
  else if !transientStatus status then s
  else
    let fc := s.fail_count + 1
    if threshold ≤ fc then { fail_count := fc, open_until := now + open_sec }
    else { fail_count := fc, open_until := s.open_until }

/-- The outcome of one backend interaction. -/
inductive BackendReply where
  | ok (text : String)
  | fail (status : Option Nat)
deriving Repr, DecidableEq

/-- The outcome of a `generate`/`agenerate` call. -/
inductive GenResult where
  | circuitOpen
  | success (text : String)
  | failure (status : Option Nat)
deriving Repr, DecidableEq

/-- The retry loop of `agenerate` (identical decision logic to
`_retry_loop`): each failure is recorded against the breaker; retry while
`attempt < max_retries` and the status is transient. `backend n` is the
reply of the backend to the n-th attempt; the result carries the final state
and the number of backend invocations. Fuel is `max_retries + 1 - attempt`,
which the loop never exhausts. -/
def agenLoop (enabled : Bool) (threshold maxRetries : Nat) (open_sec now : ℚ)
    (backend : Nat → BackendReply) :
    Nat → Nat → CBState → GenResult × CBState × Nat
  | _, 0, s => (.failure none, s, 0)
  | attempt, fuel + 1, s =>
    match backend attempt with
    | .ok t => (.success t, circuit_on_success enabled s, 1)
    | .fail status =>
      let s2 := circuit_on_error enabled threshold open_sec now status s
      if maxRetries ≤ attempt ∨ (status ≠ none ∧ ¬transientStatus status) then
        (.failure status, s2, 1)
      else
        let r := agenLoop enabled threshold maxRetries open_sec now backend
          (attempt + 1) fuel s2
        (r.1, r.2.1, r.2.2 + 1)

/-- Function `agenerate`: fail fast with the distinguishable circuit-open error
("llm_circuit_open") without touching the backend while the breaker is
open, otherwise run the retry loop. -/
def agenerate (enabled : Bool) (threshold maxRetries : Nat) (open_sec now : ℚ)
    (backend : Nat → BackendReply) (s : CBState) : GenResult × CBState × Nat :=
  let gate := circuit_is_open enabled now s
  if gate.1 then (.circuitOpen, gate.2, 0)
  else agenLoop enabled threshold maxRetries open_sec now backend 0
    (maxRetries + 1) gate.2

/-! ## llm/openai_compatible.py — `astream` zero-token fallback

The chunk-delivery logic of a successful `astream` call: chunks whose
delta `content` is absent or empty are not yielded (`if content:`); if the
whole streaming attempt yielded nothing, the one-shot `agenerate` result
is yielded as a single chunk — but again only if it is non-empty. -/

/-- The chunks the streaming attempt itself yields (`if content:` skips
absent or empty delta contents). -/
def astream_yielded (streamDeltas : List (Option String)) : List String :=
  streamDeltas.filterMap (fun c =>
    match c with
    | some t => if t = "" then none else some t
    | none => none)

def astream_chunks (streamDeltas : List (Option String)) (oneShotText : String) :
    List String :=
  let yielded := astream_yielded streamDeltas
  if yielded.isEmpty then
    (if oneShotText = "" then [] else [oneShotText])
  else yielded

/-! ## utils/sse.py and app/routers/sse.py — SSE framing

`json.dumps` of the small data dicts is modelled by literal JSON
assembly; string escaping is elided (faithful for payloads without
characters needing JSON escapes). Heartbeat comment lines and the timeout
path are wall-clock-dependent and are not part of the modelled
normal-completion trace. -/

/-- Function `format_sse(event, data, id=None)`. -/
def format_sse (event : String) (dataJson : String) (id : Option String) :
    String :=
  let lines :=
    (match id with
     | some i => ["id: " ++ i]
     | none => []) ++ ["event: " ++ event, "data: " ++ dataJson]
  String.intercalate "\n" lines ++ "\n\n"

def metadataJson (session_id : String) : String :=
  "\x7b\"session_id\": \"" ++ session_id ++ "\"\x7d"

def deltaJson (tok : String) : String :=
  "\x7b\"text\": \"" ++ tok ++ "\"\x7d"

def doneOkJson : String := "\x7b\"ok\": true\x7d"

/-- The delta/done tail of `_stream_logic`, threading the `eid` counter
(`eid += 1` before each id-bearing frame). -/
def sse_delta_loop (eid : Nat) : List String → List String
  | [] => [format_sse "done" doneOkJson (some (toString (eid + 1)))]
  | tok :: toks =>
    format_sse "delta" (deltaJson tok) (some (toString (eid + 1))) ::
      sse_delta_loop (eid + 1) toks

/-- The frame sequence `_stream_logic` writes on a normally-completing
stream: the metadata event (no id), an optional `retry:` directive, one
`delta` frame per token, then the `done` frame. `resume_from` is the
parsed Last-Event-ID. -/
def stream_frames (session_id : String) (retry_ms : Int) (resume_from : Nat)
    (toks : List String) : List String :=
  [format_sse "metadata" (metadataJson session_id) none] ++
    (if 0 < retry_ms then ["retry: " ++ toString retry_ms ++ "\n\n"] else []) ++
    sse_delta_loop resume_from toks

/-- The event-id sequence attached to the id-bearing frames (deltas then
done) for a stream resuming at `resume_from` with `n` delta frames. -/
def sse_event_ids (resume_from : Nat) (n : Nat) : List Nat :=
  (List.range (n + 1)).map (fun i => resume_from + i + 1)

/-! ## ops/idempotency.py and app/routers/rest.py — the ledger call sites

`get_cached(idem_key, method, path)` and
`set_cached(idem_key, payload, method, path, ttl_sec=300)` each take the
HTTP method and path as required positional parameters (the ledger key is
`sha256(f"{method.upper()} {path} {idem_key}")`). Python binds call
arguments before the coroutine body runs: a call supplying fewer
positional arguments than there are parameters without defaults raises
`TypeError`. -/

/-- Python positional-argument binding: `required` parameters without
defaults, `supplied` positional arguments at the call site. -/
def pythonCallBind (required supplied : Nat) : Except String Unit :=
  if supplied < required then .error "TypeError" else .ok ()

/-- Function `get_cached` has 3 parameters, none with a default. -/
def get_cached_required_params : Nat := 3

/-- Function `set_cached` has 5 parameters of which only `ttl_sec` has a default. -/
def set_cached_required_params : Nat := 4

/-- Call site in `rest_retrieve`: `cached = await get_cached(idem_key)`, one
positional argument. -/
def rest_retrieve_get_cached_call : Except String Unit :=
  pythonCallBind get_cached_required_params 1

/-- Call site in `rest_retrieve`: `await set_cached(idem_key, resp.model_dump())`,
two positional arguments. -/
def rest_retrieve_set_cached_call : Except String Unit :=
  pythonCallBind set_cached_required_params 2

/-! ## Concrete instances used by witnesses -/

/-- The default configuration of app/settings.py (the fields the model
reads). -/
def defaultSettings : SettingsModel :=
  { CACHE_ENABLED := true, RAG_ENABLED := false, CACHE_TTL_SEC := 120,
    SEMANTIC_CACHE_MAX_TEXT_CHARS := 4000, SSE_RESUME_OVERLAP_TOKENS := 3,
    SSE_CACHE_FLUSH_EVERY_N_TOKENS := 20, PRIVACY_STRICT_MODE := false }

/-- The session context of a request with neither user_id nor session_id. -/
def ctxAnon : SessionCtx := { user_id := "anon", session_id := "anon" }

def uiQ : UserInputM := { question := "q", session_id := none, user_id := none }

def emptyWorld : WorldM := { cache := [], history := [] }

def uiSecret : UserInputM :=
  { question := "my password is hunter2", session_id := none, user_id := none }

/-- Settings with the SSE resume overlap set to 1. -/
def overlap1Settings : SettingsModel :=
  { defaultSettings with SSE_RESUME_OVERLAP_TOKENS := 1 }

/-- A cached SSE entry with frames ["a", "b", "c"]. -/
def cachedFramesPayload : CachePayload :=
  { text := some "abc", citations := none, finish_reason := none,
    frames := some ["a", "b", "c"] }

/-- A world whose semantic cache holds `cachedFramesPayload` for question
"q" in the anonymous session context, expiring at t=1. -/
def worldWithFrames : WorldM :=
  { cache := [(semantic_cache_key "v1" "any" "q" ctxAnon, cachedFramesPayload, 1)],
    history := [] }

/-- A world whose semantic cache holds a REST-written entry (no frames)
for question "q" in the anonymous session context, expiring at t=1. -/
def worldWithRestEntry : WorldM :=
  { cache := [(semantic_cache_key "v1" "any" "q" ctxAnon,
      payloadOfResponse { text := "Paris", citations := [], finish_reason := "stop" },
      1)],
    history := [] }

/-! # Theorems -/

/-- C1: the REST idempotency replay cannot happen as specified: the
`rest_retrieve` call sites invoke `get_cached`/`set_cached` without the
required `method` and `path` positional arguments, so any request carrying
an Idempotency-Key raises `TypeError` at the lookup call instead of
consulting the ledger. -/
theorem C1_idempotency_call_sites_raise :
    rest_retrieve_get_cached_call = Except.error "TypeError" ∧
    rest_retrieve_set_cached_call = Except.error "TypeError" := by
  constructor <;> rfl

/-- C4 counterexample: a successful `astream` run whose streaming attempt
yields zero tokens and whose one-shot fallback returns the empty string
delivers zero chunks to the caller, refuting "the caller receives at least
one chunk". -/
theorem C4_counterexample : (astream_chunks [] "").length = 0 := by rfl

/-- C4 (amended): if the full streaming attempt yields zero tokens, the
client falls back to the one-shot interface and emits its result as a
single chunk provided that result is non-empty; callers are only
guaranteed at least one chunk on success when the one-shot fallback text
is non-empty. -/
theorem C4_astream_fallback (streamDeltas : List (Option String))
    (oneShot : String) (h : oneShot ≠ "") :
    astream_chunks streamDeltas oneShot ≠ [] ∧
    (astream_yielded streamDeltas = [] →
      astream_chunks streamDeltas oneShot = [oneShot]) := by
  unfold astream_chunks
  constructor
  · by_cases hy : (astream_yielded streamDeltas).isEmpty
    · simp [hy, h]
    · simpa [hy] using fun hcon => hy (by simp [hcon])
  · intro hy
    simp [hy, h]

/-- C4 witness. -/
theorem C4_astream_fallback_witness :
    ("Paris" ≠ "") ∧ astream_chunks [] "Paris" = ["Paris"] :=
  ⟨by decide, (C4_astream_fallback [] "Paris" (by decide)).2 (by rfl)⟩

/-- C6 counterexample: for a `UserInput` with no session_id, the
semantic-cache session context built by `Orchestrator._session_ctx` keys
the session as `"anon"`, not the claimed `"default"` (which only the
history store uses). -/
theorem C6_counterexample :
    (session_ctx { question := "hi", session_id := none, user_id := none }).session_id
        = "anon" ∧
    history_session_id { question := "hi", session_id := none, user_id := none }
        = "default" ∧
    ("anon" : String) ≠ "default" := by
  refine ⟨rfl, rfl, by decide⟩

/-- C6 (amended): a missing user_id becomes the literal `"anon"` in the
semantic-cache session context; a missing session_id becomes `"default"`
for history-store keying but `"anon"` inside the semantic-cache session
context. -/
theorem C6_identity_defaults (ui : UserInputM) (hs : ui.session_id = none)
    (hu : ui.user_id = none) :
    session_ctx ui = { user_id := "anon", session_id := "anon" } ∧
    history_session_id ui = "default" := by
  simp [session_ctx, history_session_id, hs, hu]

/-- C6 witness. -/
theorem C6_identity_defaults_witness :
    ({ question := "hi", session_id := none, user_id := none } : UserInputM).session_id
        = none ∧
    session_ctx { question := "hi", session_id := none, user_id := none } =
      { user_id := "anon", session_id := "anon" } ∧
    history_session_id { question := "hi", session_id := none, user_id := none }
        = "default" :=
  ⟨rfl,
   (C6_identity_defaults { question := "hi", session_id := none, user_id := none }
     rfl rfl).1,
   (C6_identity_defaults { question := "hi", session_id := none, user_id := none }
     rfl rfl).2⟩

/-- The `eid`-threading delta loop in closed form: the k-th delta frame
(0-based) carries id `eid + k + 1`, the done frame id
`eid + toks.length + 1`. -/
theorem sse_delta_loop_eq (eid : Nat) (toks : List String) :
    sse_delta_loop eid toks =
      (List.enumFrom eid toks).map
        (fun p => format_sse "delta" (deltaJson p.2) (some (toString (p.1 + 1)))) ++
      [format_sse "done" doneOkJson (some (toString (eid + toks.length + 1)))] := by
  induction toks generalizing eid with
  | nil => simp [sse_delta_loop]
  | cons t ts ih =>
    simp only [sse_delta_loop, List.enumFrom, List.map_cons, List.cons_append,
      List.length_cons, ih (eid + 1)]
    rw [show eid + 1 + ts.length + 1 = eid + (ts.length + 1) + 1 from by omega]

/-- The id sequence of the id-bearing frames matches `sse_event_ids`. -/
theorem sse_event_ids_enumFrom (r : Nat) (toks : List String) :
    sse_event_ids r toks.length =
      (List.enumFrom r toks).map (fun p => p.1 + 1) ++ [r + toks.length + 1] := by
  induction toks generalizing r with
  | nil => simp [sse_event_ids, List.range_succ]
  | cons t ts ih =>
    simp only [sse_event_ids, List.length_cons, List.enumFrom, List.map_cons,
      List.cons_append]
    rw [List.range_succ_eq_map]
    simp only [List.map_cons, List.map_map]
    have h2 := ih (r + 1)
    simp only [sse_event_ids] at h2
    rw [show ((fun i => r + i + 1) ∘ Nat.succ) = fun i => r + 1 + i + 1 from
      funext (fun i => by simp [Function.comp]; omega), h2,
      show r + 1 + ts.length + 1 = r + (ts.length + 1) + 1 from by omega]

/-- C5 counterexample: the first SSE event written by `_stream_logic` is
the metadata event, emitted by `format_sse("metadata", ..., id=None)`
without any `id:` line, so it is not framed as
`id: <n>\nevent: <name>\ndata: <json>\n\n` as the claim requires of every
event. -/
theorem C5_counterexample :
    (stream_frames "default" 0 0 ["a"]).head? =
      some "event: metadata\ndata: \x7b\"session_id\": \"default\"\x7d\n\n" ∧
    ("event: metadata\ndata: \x7b\"session_id\": \"default\"\x7d\n\n".toList.take 4
      ≠ "id: ".toList) := by
  constructor
  · rfl
  · decide

/-- C5 (amended): the `metadata` event comes first, carrying the session
id but no `id:` line; every `delta` and the final `done` event is framed
`id: <n>\nevent: <name>\ndata: <json>\n\n`, the k-th delta carrying id
`resume_from + k + 1` and `done` carrying `resume_from + n + 1`; these ids
form a strictly increasing integer sequence whose first element is
`resume_from + 1`. -/
theorem C5_sse_framing (sid : String) (retry_ms : Int) (resume_from : Nat)
    (toks : List String) :
    stream_frames sid retry_ms resume_from toks =
      [format_sse "metadata" (metadataJson sid) none] ++
        (if 0 < retry_ms then ["retry: " ++ toString retry_ms ++ "\n\n"] else []) ++
        ((List.enumFrom resume_from toks).map
          (fun p => format_sse "delta" (deltaJson p.2) (some (toString (p.1 + 1)))) ++
         [format_sse "done" doneOkJson
           (some (toString (resume_from + toks.length + 1)))]) ∧
    sse_event_ids resume_from toks.length =
      (List.enumFrom resume_from toks).map (fun p => p.1 + 1) ++
        [resume_from + toks.length + 1] ∧
    List.Pairwise (· < ·) (sse_event_ids resume_from toks.length) ∧
    (sse_event_ids resume_from toks.length).head? = some (resume_from + 1) := by
  refine ⟨?_, sse_event_ids_enumFrom resume_from toks, ?_, ?_⟩
  · unfold stream_frames
    rw [sse_delta_loop_eq]
  · exact (List.pairwise_lt_range (toks.length + 1)).map _
      (fun a b hab => by omega)
  · simp [sse_event_ids, List.range_succ_eq_map]

/-- When every stored timestamp is still strictly inside the sliding
window and the current instant is fresh, the drop step removes nothing:
the check counts the whole state and appends the current timestamp. -/
theorem check_rate_limit_fresh (rpm : Nat) (st : List ℚ) (now : ℚ)
    (h : ∀ x ∈ st, now - RL_WINDOW_SEC < x) (h2 : ∀ x ∈ st, x < now) :
    check_rate_limit rpm st now =
      (decide (st.length < max 1 rpm), st ++ [now]) := by
  have hs : rl_survivors st now = st := by
    apply List.filter_eq_self.mpr
    intro x hx
    simp only [Bool.not_eq_eq_eq_not, Bool.not_true, decide_eq_false_iff_not]
    exact fun hc => absurd (h x hx) (not_lt.mpr hc.2)
  have h2' : now ∉ st := fun hmem => lt_irrefl now (h2 now hmem)
  simp only [check_rate_limit, hs]
  rw [if_neg h2']

/-- When every stored timestamp has left the sliding window, the drop step
clears the state and the check is admitted on a count of zero. -/
theorem check_rate_limit_stale (rpm : Nat) (st : List ℚ) (now : ℚ)
    (h : ∀ x ∈ st, 0 ≤ x ∧ x ≤ now - RL_WINDOW_SEC) :
    check_rate_limit rpm st now = (true, [now]) := by
  have hs : rl_survivors st now = [] := by
    apply List.filter_eq_nil_iff.mpr
    intro x hx
    simp [h x hx]
  simp only [check_rate_limit, hs]
  simp [Nat.lt_of_lt_of_le Nat.zero_lt_one (le_max_left 1 rpm)]

theorem rl_run_cons (rpm : Nat) (t : ℚ) (ts : List ℚ) (st : List ℚ) :
    rl_run rpm (t :: ts) st =
      ((check_rate_limit rpm st t).1 ::
         (rl_run rpm ts (check_rate_limit rpm st t).2).1,
       (rl_run rpm ts (check_rate_limit rpm st t).2).2) := rfl

/-- C2: admission is denied iff the post-drop count of window timestamps,
taken before the current timestamp is inserted, has reached the limit;
with limit 5, six checks for one identity inside one 60-second window
admit exactly the first five and deny the sixth, and a seventh check after
the window has elapsed is admitted again. -/
theorem C2_rate_limiter :
    (∀ (rpm : Nat) (st : List ℚ) (now : ℚ),
        (check_rate_limit rpm st now).1 = false ↔
          max 1 rpm ≤ rl_window_count st now) ∧
    (∀ t0 t1 t2 t3 t4 t5 t6 : ℚ,
        0 ≤ t0 → t0 < t1 → t1 < t2 → t2 < t3 → t3 < t4 → t4 < t5 →
        t5 < t0 + 60 → t5 + 60 ≤ t6 →
        rl_run 5 [t0, t1, t2, t3, t4, t5, t6] [] =
          ([true, true, true, true, true, false, true], [t6])) := by
  constructor
  · intro rpm st now
    show decide ((rl_survivors st now).length < max 1 rpm) = false ↔
      max 1 rpm ≤ rl_window_count st now
    rw [decide_eq_false_iff_not, Nat.not_lt]
    exact Iff.rfl
  · intro t0 t1 t2 t3 t4 t5 t6 h0 h01 h12 h23 h34 h45 hwin hgap
    have hW : RL_WINDOW_SEC = (60 : ℚ) := rfl
    have s0 : check_rate_limit 5 [] t0 = (true, [t0]) := by
      have := check_rate_limit_fresh 5 [] t0 (by simp) (by simp)
      simpa using this
    have s1 : check_rate_limit 5 [t0] t1 = (true, [t0, t1]) := by
      have := check_rate_limit_fresh 5 [t0] t1
        (by intro x hx; fin_cases hx <;> (rw [hW]; linarith))
        (by intro x hx; fin_cases hx <;> linarith)
      simpa using this
    have s2 : check_rate_limit 5 [t0, t1] t2 = (true, [t0, t1, t2]) := by
      have := check_rate_limit_fresh 5 [t0, t1] t2
        (by intro x hx; fin_cases hx <;> (rw [hW]; linarith))
        (by intro x hx; fin_cases hx <;> linarith)
      simpa using this
    have s3 : check_rate_limit 5 [t0, t1, t2] t3 = (true, [t0, t1, t2, t3]) := by
      have := check_rate_limit_fresh 5 [t0, t1, t2] t3
        (by intro x hx; fin_cases hx <;> (rw [hW]; linarith))
        (by intro x hx; fin_cases hx <;> linarith)
      simpa using this
    have s4 : check_rate_limit 5 [t0, t1, t2, t3] t4 =
        (true, [t0, t1, t2, t3, t4]) := by
      have := check_rate_limit_fresh 5 [t0, t1, t2, t3] t4
        (by intro x hx; fin_cases hx <;> (rw [hW]; linarith))
        (by intro x hx; fin_cases hx <;> linarith)
      simpa using this
    have s5 : check_rate_limit 5 [t0, t1, t2, t3, t4] t5 =
        (false, [t0, t1, t2, t3, t4, t5]) := by
      have := check_rate_limit_fresh 5 [t0, t1, t2, t3, t4] t5
        (by intro x hx; fin_cases hx <;> (rw [hW]; linarith))
        (by intro x hx; fin_cases hx <;> linarith)
      simpa using this
    have s6 : check_rate_limit 5 [t0, t1, t2, t3, t4, t5] t6 = (true, [t6]) := by
      exact check_rate_limit_stale 5 [t0, t1, t2, t3, t4, t5] t6
        (by intro x hx; fin_cases hx <;> (rw [hW]; constructor <;> linarith))
    rw [rl_run_cons, s0]
    simp only
    rw [rl_run_cons, s1]
    simp only
    rw [rl_run_cons, s2]
    simp only
    rw [rl_run_cons, s3]
    simp only
    rw [rl_run_cons, s4]
    simp only
    rw [rl_run_cons, s5]
    simp only
    rw [rl_run_cons, s6]
    simp [rl_run]

/-- C2 witness. -/
theorem C2_rate_limiter_witness :
    rl_run 5 [(0 : ℚ), 1, 2, 3, 4, 5, 65] [] =
      ([true, true, true, true, true, false, true], [65]) :=
  C2_rate_limiter.2 0 1 2 3 4 5 65 (by norm_num) (by norm_num) (by norm_num)
    (by norm_num) (by norm_num) (by norm_num) (by norm_num) (by norm_num)

/-- Iterating `_circuit_on_error` on transient failures below the
threshold accumulates `fail_count` without opening the circuit. -/
theorem circuit_on_error_iterate_lt (threshold : Nat) (open_sec now : ℚ)
    (status : Option Nat) (htr : transientStatus status = true)
    (k : Nat) (hk : k < threshold) :
    (fun st => circuit_on_error true threshold open_sec now status st)^[k]
        { fail_count := 0, open_until := 0 } =
      { fail_count := k, open_until := 0 } := by
  induction k with
  | zero => rfl
  | succ k ih =>
    rw [Function.iterate_succ_apply', ih (Nat.lt_of_succ_lt hk)]
    simp only [circuit_on_error, htr, Bool.not_true, Bool.false_eq_true,
      if_false, if_neg (Nat.not_le.mpr hk)]

/-- One fuelled retry-loop step always reaches the backend at least once. -/
theorem agenLoop_calls_pos (enabled : Bool) (threshold maxRetries : Nat)
    (open_sec now : ℚ) (backend : Nat → BackendReply) (attempt fuel : Nat)
    (s : CBState) :
    1 ≤ (agenLoop enabled threshold maxRetries open_sec now backend attempt
          (fuel + 1) s).2.2 := by
  simp only [agenLoop]
  cases backend attempt with
  | ok t => simp
  | fail status =>
    split
    · simp
    · split
      · simp
      · simp

/-- C3: with the breaker enabled, (i) `fail_threshold` consecutive
transient failures open the circuit until `now + open_sec`; (ii) any
`generate` call made while `now < open_until` fails fast with the
distinguishable circuit-open error, performs zero backend calls, and
leaves the breaker state (in particular `fail_count`) unchanged; (iii)
once `open_until` (nonzero) has elapsed, the next call lazily resets the
breaker to closed and reaches the backend at least once. -/
theorem C3_circuit_breaker :
    (∀ (threshold : Nat) (open_sec now : ℚ) (status : Option Nat),
        transientStatus status = true → 1 ≤ threshold →
        (fun st => circuit_on_error true threshold open_sec now status st)^[threshold]
            { fail_count := 0, open_until := 0 } =
          { fail_count := threshold, open_until := now + open_sec }) ∧
    (∀ (threshold maxRetries : Nat) (open_sec now : ℚ)
        (backend : Nat → BackendReply) (s : CBState),
        now < s.open_until →
        agenerate true threshold maxRetries open_sec now backend s =
          (.circuitOpen, s, 0)) ∧
    (∀ (threshold maxRetries : Nat) (open_sec now : ℚ)
        (backend : Nat → BackendReply) (s : CBState),
        s.open_until ≠ 0 → s.open_until ≤ now →
        agenerate true threshold maxRetries open_sec now backend s =
          agenLoop true threshold maxRetries open_sec now backend 0
            (maxRetries + 1) { fail_count := 0, open_until := 0 } ∧
        1 ≤ (agenerate true threshold maxRetries open_sec now backend s).2.2) := by
  refine ⟨?_, ?_, ?_⟩
  · intro threshold open_sec now status htr hth
    obtain ⟨k, rfl⟩ : ∃ k, threshold = k + 1 :=
      ⟨threshold - 1, by omega⟩
    rw [Function.iterate_succ_apply',
      circuit_on_error_iterate_lt (k + 1) open_sec now status htr k
        (Nat.lt_succ_self k)]
    simp [circuit_on_error, htr]
  · intro threshold maxRetries open_sec now backend s hopen
    have hgate : circuit_is_open true now s = (true, s) := by
      simp [circuit_is_open, hopen]
    simp [agenerate, hgate]
  · intro threshold maxRetries open_sec now backend s hnz hle
    have hgate : circuit_is_open true now s =
        (false, { fail_count := 0, open_until := 0 }) := by
      simp [circuit_is_open, not_lt.mpr hle, hnz, hle]
    constructor
    · simp [agenerate, hgate]
    · simp only [agenerate, hgate]
      exact agenLoop_calls_pos true threshold maxRetries open_sec now backend 0
        maxRetries { fail_count := 0, open_until := 0 }

/-- C3 witness: threshold 2, cooldown 30s starting at t=0; a call at t=10
fails fast without touching state or backend; a call at t=30 resets and
reaches the backend. -/
theorem C3_circuit_breaker_witness :
    ((fun st => circuit_on_error true 2 30 0 (some 500) st)^[2]
        { fail_count := 0, open_until := 0 } =
      { fail_count := 2, open_until := 0 + 30 }) ∧
    (agenerate true 2 3 30 10 (fun _ => .ok "hi")
        { fail_count := 2, open_until := 30 } =
      (.circuitOpen, { fail_count := 2, open_until := 30 }, 0)) ∧
    (1 ≤ (agenerate true 2 3 30 30 (fun _ => .ok "hi")
        { fail_count := 2, open_until := 30 }).2.2) :=
  ⟨C3_circuit_breaker.1 2 30 0 (some 500) (by decide) (by decide),
   C3_circuit_breaker.2.1 2 3 30 10 (fun _ => .ok "hi")
     { fail_count := 2, open_until := 30 } (by norm_num),
   (C3_circuit_breaker.2.2 2 3 30 30 (fun _ => .ok "hi")
     { fail_count := 2, open_until := 30 } (by norm_num) (by norm_num)).2⟩

/-- A `setex` followed by a `get` on the same key returns the stored value
before the TTL elapses and nothing afterwards. -/
theorem kv_get_setex_self (st : KVStore) (key : CacheKey) (ttl : ℚ)
    (v : CachePayload) (now t : ℚ) :
    kv_get (kv_setex st key ttl v now) key t =
      if t < now + ttl then some v else none := by
  simp [kv_get, kv_setex, List.find?]

/-- Round trip: `post_cache_set` followed by `pre_cache_get` under the same question
and session context, with the cache enabled. -/
theorem pre_cache_get_post_cache_set (s : SettingsModel)
    (hen : s.CACHE_ENABLED = true) (st : KVStore) (now t : ℚ) (q : String)
    (ctx : SessionCtx) (p : CachePayload) :
    pre_cache_get s (post_cache_set s st now q ctx p) t q ctx =
      if t < now + ((max 1 s.CACHE_TTL_SEC : Int) : ℚ) then
        some (truncatePayload s.SEMANTIC_CACHE_MAX_TEXT_CHARS p)
      else none := by
  simp [pre_cache_get, post_cache_set, hen, kv_get_setex_self]

/-- C9: a `post_cache_set(q, ctx, payload)` followed by
`pre_cache_get(q, ctx)` returns the payload, structurally equal up to the
configured truncation of oversized text/frames, at any read time before
the TTL (`max 1 CACHE_TTL_SEC` seconds) expires, and `none` at any read
time from expiry on. -/
theorem C9_cache_round_trip (s : SettingsModel) (st : KVStore) (now t : ℚ)
    (q : String) (ctx : SessionCtx) (payload : CachePayload)
    (hen : s.CACHE_ENABLED = true) :
    (t < now + ((max 1 s.CACHE_TTL_SEC : Int) : ℚ) →
      pre_cache_get s (post_cache_set s st now q ctx payload) t q ctx =
        some (truncatePayload s.SEMANTIC_CACHE_MAX_TEXT_CHARS payload)) ∧
    (now + ((max 1 s.CACHE_TTL_SEC : Int) : ℚ) ≤ t →
      pre_cache_get s (post_cache_set s st now q ctx payload) t q ctx = none) := by
  constructor
  · intro h
    rw [pre_cache_get_post_cache_set s hen, if_pos h]
  · intro h
    rw [pre_cache_get_post_cache_set s hen, if_neg (not_lt.mpr h)]

/-- C9 witness: write at t=0 with the default 120s TTL, read back at t=10
and at t=130. -/
theorem C9_cache_round_trip_witness :
    pre_cache_get defaultSettings
        (post_cache_set defaultSettings [] 0 "q" ctxAnon
          (payloadOfResponse ⟨"Paris", [], "stop"⟩)) 10 "q" ctxAnon =
      some (truncatePayload 4000 (payloadOfResponse ⟨"Paris", [], "stop"⟩)) ∧
    pre_cache_get defaultSettings
        (post_cache_set defaultSettings [] 0 "q" ctxAnon
          (payloadOfResponse ⟨"Paris", [], "stop"⟩)) 130 "q" ctxAnon = none :=
  ⟨(C9_cache_round_trip defaultSettings [] 0 10 "q" ctxAnon
      (payloadOfResponse ⟨"Paris", [], "stop"⟩) rfl).1
      (by norm_num [defaultSettings]),
   (C9_cache_round_trip defaultSettings [] 0 130 "q" ctxAnon
      (payloadOfResponse ⟨"Paris", [], "stop"⟩) rfl).2
      (by norm_num [defaultSettings])⟩

/-- C7: on an SSE cache hit with stored frames, the flow replays the
frames from index `max(0, resume_from - overlap)` and returns with no
backend call and no state change; in particular frames ["a","b","c"] with
resume_from=2 and overlap=1 replay from index 1. -/
theorem C7_sse_replay (s : SettingsModel) (redact : String → String)
    (pii : String → Bool) (stream : List String × Bool)
    (retrieveRes : Except Unit (List RetrievalResultM)) (now : ℚ)
    (ui : UserInputM) (resume_from : Int) (w : WorldM) (p : CachePayload)
    (frames : List String)
    (hen : s.CACHE_ENABLED = true)
    (hq : SENSITIVE_SHARE_MATCH ui.question = false)
    (hc : pre_cache_get s w.cache now ui.question (session_ctx ui) = some p)
    (hf : p.frames = some frames) :
    answer_sse_tokens s redact pii stream retrieveRes now ui resume_from w =
      (frames.drop
         (max 0 (resume_from - max 0 s.SSE_RESUME_OVERLAP_TOKENS)).toNat,
       w,
       { llm_calls := 0, cache_reads := 1, cache_writes := 0,
         history_reads := 0, history_writes := 0 }) := by
  have hidx :
      (if 0 < resume_from then
         max 0 (resume_from - max 0 s.SSE_RESUME_OVERLAP_TOKENS)
       else 0)
        = max 0 (resume_from - max 0 s.SSE_RESUME_OVERLAP_TOKENS) := by
    by_cases hr : 0 < resume_from
    · rw [if_pos hr]
    · rw [if_neg hr]
      omega
  simp [answer_sse_tokens, check_input, hq, hen, hc, hf, hidx]

/-- C7 witness: cached frames ["a","b","c"], resume_from 2, overlap 1. -/
theorem C7_sse_replay_witness :
    pre_cache_get overlap1Settings worldWithFrames.cache 0 "q" (session_ctx uiQ)
        = some cachedFramesPayload ∧
    answer_sse_tokens overlap1Settings id (fun _ => false) ([], false) (.ok [])
        0 uiQ 2 worldWithFrames =
      (["b", "c"], worldWithFrames,
       { llm_calls := 0, cache_reads := 1, cache_writes := 0,
         history_reads := 0, history_writes := 0 }) := by
  refine ⟨by decide, ?_⟩
  have h := C7_sse_replay overlap1Settings id (fun _ => false) ([], false)
    (.ok []) 0 uiQ 2 worldWithFrames cachedFramesPayload ["a", "b", "c"]
    rfl (by decide) (by decide) rfl
  simpa [overlap1Settings, defaultSettings] using h

/-- C8: an input matching the secret-sharing pattern makes `answer_rest`
return a blocked `ResponseOutput` immediately with no backend call and no
cache/history reads or writes, leaving the world unchanged; an input not
matching the pattern is allowed by `check_input` with its text unchanged. -/
theorem C8_input_guardrail :
    (∀ (s : SettingsModel) (redact : String → String) (llm : Except Unit String)
        (retrieveRes : Except Unit (List RetrievalResultM)) (now : ℚ)
        (ui : UserInputM) (w : WorldM),
        SENSITIVE_SHARE_MATCH ui.question = true →
        answer_rest s redact llm retrieveRes now ui w =
          ({ text := BLOCK_TEXT, citations := [], finish_reason := "blocked" },
           w, Effects.zero)) ∧
    (∀ text : String, SENSITIVE_SHARE_MATCH text = false →
        check_input text =
          { allowed := true, reason := none, transformed_text := some text }) := by
  constructor
  · intro s redact llm retrieveRes now ui w h
    simp [answer_rest, check_input, h]
  · intro text h
    simp [check_input, h]

/-- C8 witness. -/
theorem C8_input_guardrail_witness :
    SENSITIVE_SHARE_MATCH "my password is hunter2" = true ∧
    answer_rest defaultSettings id (.ok "hi") (.ok []) 0 uiSecret emptyWorld =
      ({ text := BLOCK_TEXT, citations := [], finish_reason := "blocked" },
       emptyWorld, Effects.zero) ∧
    SENSITIVE_SHARE_MATCH "hello" = false ∧
    check_input "hello" =
      { allowed := true, reason := none, transformed_text := some "hello" } :=
  ⟨by decide,
   C8_input_guardrail.1 defaultSettings id (.ok "hi") (.ok []) 0 uiSecret
     emptyWorld (by decide),
   by decide,
   C8_input_guardrail.2 "hello" (by decide)⟩

/-- Two `setex` writes to the same key: the second fully replaces the
first. -/
theorem kv_setex_kv_setex (st : KVStore) (key : CacheKey) (t1 t2 : ℚ)
    (v1 v2 : CachePayload) (n1 n2 : ℚ) :
    kv_setex (kv_setex st key t1 v1 n1) key t2 v2 n2 =
      kv_setex st key t2 v2 n2 := by
  simp [kv_setex, List.filter_filter]

/-- Two semantic-cache writes under the same question and context: the
second fully replaces the first (no merge). -/
theorem post_cache_set_post_cache_set (s : SettingsModel) (st : KVStore)
    (n1 n2 : ℚ) (q : String) (ctx : SessionCtx) (p1 p2 : CachePayload) :
    post_cache_set s (post_cache_set s st n1 q ctx p1) n2 q ctx p2 =
      post_cache_set s st n2 q ctx p2 := by
  by_cases hen : s.CACHE_ENABLED
  · simp [post_cache_set, hen, kv_setex_kv_setex]
  · simp [post_cache_set, hen]

/-- The SSE token loop leaves the cache either untouched or overwritten
under the own (question, ctx) key of the flow by some incremental flush. -/
theorem sse_stream_loop_cache (s : SettingsModel) (pii : String → Bool)
    (now : ℚ) (q : String) (ctx : SessionCtx) (fe : Nat) :
    ∀ (toks : List String) (since : Nat) (frames : List String) (st : KVStore),
      (sse_stream_loop s pii now q ctx fe toks since frames st).2.1 = st ∨
      ∃ p, (sse_stream_loop s pii now q ctx fe toks since frames st).2.1 =
        post_cache_set s st now q ctx p := by
  intro toks
  induction toks with
  | nil =>
    intro since frames st
    left
    rfl
  | cons tok rest ih =>
    intro since frames st
    simp only [sse_stream_loop]
    cases hb : check_stream_token s.PRIVACY_STRICT_MODE pii tok with
    | true =>
      simp only [if_true]
      exact ih since frames st
    | false =>
      simp only [Bool.false_eq_true, if_false]
      by_cases hfl : s.CACHE_ENABLED = true ∧ (0 < fe ∧ fe ≤ since + 1)
      · rw [if_pos (by simp [hfl.1, hfl.2.1, hfl.2.2])]
        rcases ih 0 (frames ++ [tok])
            (post_cache_set s st now q ctx
              { text := none, citations := none, finish_reason := none,
                frames := some (frames ++ [tok]) }) with h | ⟨p, h⟩
        · right
          exact ⟨_, h⟩
        · right
          rw [h, post_cache_set_post_cache_set]
          exact ⟨p, rfl⟩
      · rw [if_neg (fun hcon => hfl (by simpa using hcon))]
        exact ih (since + 1) (frames ++ [tok]) st


/-- The SSE miss path always ends by persisting a frames-bearing payload
over the cache key of the flow, collapsing any incremental flushes. -/
theorem answer_sse_miss_cache (s : SettingsModel) (redact : String → String)
    (pii : String → Bool) (stream : List String × Bool)
    (retrieveRes : Except Unit (List RetrievalResultM)) (now : ℚ)
    (question : String) (ctx : SessionCtx) (sid : String) (cr : Nat)
    (w : WorldM) :
    ∃ (text : String) (frames : List String),
      (answer_sse_miss s redact pii stream retrieveRes now question ctx sid
          cr w).2.1.cache
        = post_cache_set s w.cache now question ctx
            { text := some text, citations := none, finish_reason := none,
              frames := some frames } := by
  simp only [answer_sse_miss]
  rcases sse_stream_loop_cache s pii now question ctx
      ((max 0 s.SSE_CACHE_FLUSH_EVERY_N_TOKENS).toNat) stream.1 0 [] w.cache
    with h | ⟨p, h⟩
  · exact ⟨_, _, by rw [h]⟩
  · exact ⟨_, _, by rw [h, post_cache_set_post_cache_set]⟩

/-- C10: both cache functions key entries with the fixed kind "any", so
REST and SSE share one entry per (question, session context): a
frames-bearing entry written by a completed SSE stream is a REST cache hit
returned as a `ResponseOutput` with empty citations and finish_reason
"stop" (no backend call, world unchanged); a REST-written entry (no
`frames` key) is an SSE miss — the backend is called and the entry is
overwritten with a frames-bearing payload when the SSE flow persists. -/
theorem C10_cache_sharing :
    (∀ (s : SettingsModel) (redact : String → String) (llm : Except Unit String)
        (retrieveRes : Except Unit (List RetrievalResultM)) (now : ℚ)
        (ui : UserInputM) (w : WorldM) (fs : List String) (t : String),
        s.CACHE_ENABLED = true →
        SENSITIVE_SHARE_MATCH ui.question = false →
        pre_cache_get s w.cache now ui.question (session_ctx ui) =
          some { text := some t, citations := none, finish_reason := none,
                 frames := some fs } →
        answer_rest s redact llm retrieveRes now ui w =
          ({ text := t, citations := [], finish_reason := "stop" }, w,
           { llm_calls := 0, cache_reads := 1, cache_writes := 0,
             history_reads := 0, history_writes := 0 })) ∧
    (∀ (s : SettingsModel) (redact : String → String) (pii : String → Bool)
        (stream : List String × Bool)
        (retrieveRes : Except Unit (List RetrievalResultM)) (now : ℚ)
        (ui : UserInputM) (resume_from : Int) (w : WorldM) (r : ResponseOutputM),
        s.CACHE_ENABLED = true →
        SENSITIVE_SHARE_MATCH ui.question = false →
        pre_cache_get s w.cache now ui.question (session_ctx ui) =
          some (payloadOfResponse r) →
        (answer_sse_tokens s redact pii stream retrieveRes now ui resume_from
            w).2.2.llm_calls = 1 ∧
        ∃ (text : String) (fs : List String),
          pre_cache_get s
              (answer_sse_tokens s redact pii stream retrieveRes now ui
                resume_from w).2.1.cache now ui.question (session_ctx ui) =
            some (truncatePayload s.SEMANTIC_CACHE_MAX_TEXT_CHARS
              { text := some text, citations := none, finish_reason := none,
                frames := some fs })) := by
  constructor
  · intro s redact llm retrieveRes now ui w fs t hen hq hc
    simp [answer_rest, check_input, hq, hen, hc, responseOutputOfPayload]
  · intro s redact pii stream retrieveRes now ui resume_from w r hen hq hc
    have hred : answer_sse_tokens s redact pii stream retrieveRes now ui
        resume_from w =
      answer_sse_miss s redact pii stream retrieveRes now ui.question
        (session_ctx ui) (history_session_id ui) 1 w := by
      simp [answer_sse_tokens, check_input, hq, hen, hc, payloadOfResponse]
    rw [hred]
    constructor
    · simp [answer_sse_miss]
    · obtain ⟨text, fs, hcache⟩ := answer_sse_miss_cache s redact pii stream
        retrieveRes now ui.question (session_ctx ui) (history_session_id ui) 1 w
      refine ⟨text, fs, ?_⟩
      rw [hcache, pre_cache_get_post_cache_set s hen]
      rw [if_pos]
      have hpos : (0 : ℚ) < ((max 1 s.CACHE_TTL_SEC : Int) : ℚ) := by
        have h1 : (1 : Int) ≤ max 1 s.CACHE_TTL_SEC := le_max_left 1 s.CACHE_TTL_SEC
        exact_mod_cast lt_of_lt_of_le Int.zero_lt_one h1
      exact lt_add_of_pos_right now hpos

/-- C10 witness: the SSE-written entry of `worldWithFrames` is a REST
cache hit; the REST-written entry of `worldWithRestEntry` is an SSE miss
that gets overwritten with a frames-bearing entry. -/
theorem C10_cache_sharing_witness :
    answer_rest defaultSettings id (.ok "x") (.ok []) 0 uiQ worldWithFrames =
      ({ text := "abc", citations := [], finish_reason := "stop" },
       worldWithFrames,
       { llm_calls := 0, cache_reads := 1, cache_writes := 0,
         history_reads := 0, history_writes := 0 }) ∧
    ((answer_sse_tokens defaultSettings id (fun _ => false) (["tok"], false)
        (.ok []) 0 uiQ 0 worldWithRestEntry).2.2.llm_calls = 1 ∧
     ∃ (text : String) (fs : List String),
       pre_cache_get defaultSettings
           (answer_sse_tokens defaultSettings id (fun _ => false)
             (["tok"], false) (.ok []) 0 uiQ 0 worldWithRestEntry).2.1.cache
           0 "q" (session_ctx uiQ)
         = some (truncatePayload 4000
             { text := some text, citations := none, finish_reason := none,
               frames := some fs })) :=
  ⟨C10_cache_sharing.1 defaultSettings id (.ok "x") (.ok []) 0 uiQ
      worldWithFrames ["a", "b", "c"] "abc" rfl (by decide) (by decide),
   C10_cache_sharing.2 defaultSettings id (fun _ => false) (["tok"], false)
      (.ok []) 0 uiQ 0 worldWithRestEntry
      { text := "Paris", citations := [], finish_reason := "stop" }
      rfl (by decide) (by decide)⟩

end RagOps
